import Mathlib

/-!
Shallow embedding of `setup.py` from the Rupy repository.

The source file is a packaging descriptor: it opens `README.md`, rebinds the
variable `readme` from the file handle to the file's text, and performs a
single `setup(...)` call with literal keyword arguments (plus `find_packages()`
for `packages` and the README text for `long_description`).

We embed the script as a term of a small Python AST and give it an executable
semantics producing a trace of observable events (file opens, file reads,
`find_packages` scans and the `setup` registration call).  The filesystem and
the result of the `find_packages()` directory scan are inputs of the model
(`World`).
-/

namespace Rupy

/-- Python expressions, restricted to the fragment appearing in `setup.py`
(string/bool literals, names, list and string-keyed dict displays, attribute
access and calls with positional and keyword arguments). -/
inductive PyExpr where
  | strLit (s : String)
  | boolLit (b : Bool)
  | name (x : String)
  | listLit (elems : List PyExpr)
  | dictLit (entries : List (String × PyExpr))
  | attr (obj : PyExpr) (field : String)
  | call (fn : PyExpr) (args : List PyExpr) (kwargs : List (String × PyExpr))
deriving Repr

/-- Python statements.  Besides the statement forms used by `setup.py`
(import, assignment, `with`, expression statement), the AST includes `if`,
`while`, `for` and `try/except` so that the absence of branching, loops and
error handling in the script is a meaningful syntactic property. -/
inductive PyStmt where
  | importFrom (module : String) (names : List String)
  | assign (x : String) (e : PyExpr)
  | withStmt (ctx : PyExpr) (var : String) (body : List PyStmt)
  | exprStmt (e : PyExpr)
  | ifStmt (cond : PyExpr) (thn els : List PyStmt)
  | whileStmt (cond : PyExpr) (body : List PyStmt)
  | forStmt (x : String) (iter : PyExpr) (body : List PyStmt)
  | tryStmt (body handler : List PyStmt)
deriving Repr

/-- Runtime values of the modelled fragment. -/
inductive PyVal where
  | str (s : String)
  | bool (b : Bool)
  | list (vs : List PyVal)
  | dict (entries : List (String × PyVal))
  | pathObj (path : String)
  | fileHandle (path : String) (contents : String)
  | packagesVal (pkgs : List String)
  | none
deriving Repr

/-- Runtime errors. `fileNotFound` models the `FileNotFoundError`/`OSError`
raised by `Path.open` on a missing or unreadable file. -/
inductive PyError where
  | fileNotFound (path : String)
  | nameError (x : String)
  | typeError
  | unsupportedLoop
deriving Repr, DecidableEq

/-- Observable events of one execution of the descriptor. -/
inductive Event where
  | openFile (path : String)
  | readFile (path : String)
  | findPackagesCall
  | setupCall (kwargs : List (String × PyVal))
deriving Repr

/-- The external world the script runs in: the readable files (name to
contents; `Option.none` means opening fails) and the package list that a
`find_packages()` directory scan returns. -/
structure World where
  fs : String → Option String
  packages : List String

/-- Result of evaluating a piece of the script: the trace of events emitted so
far, together with either a value or the error that aborted execution. -/
abbrev EvalRes (α : Type) := List Event × Except PyError α

def resOk {α : Type} (a : α) : EvalRes α := ([], .ok a)

def resErr {α : Type} (e : PyError) : EvalRes α := ([], .error e)

/-- Sequencing: an error aborts, keeping the trace emitted before it. -/
def resBind {α β : Type} (x : EvalRes α) (f : α → EvalRes β) : EvalRes β :=
  match x with
  | (t, .error e) => (t, .error e)
  | (t, .ok a) =>
    match f a with
    | (t2, r) => (t ++ t2, r)

/-- Variable environments; assignment rebinds by prepending. -/
abbrev Env := List (String × PyVal)

def lookupVar : Env → String → Option PyVal
  | [], _ => Option.none
  | (y, v) :: rest, x => if x = y then some v else lookupVar rest x

/-- Python truthiness for the modelled values. -/
def truthy : PyVal → Bool
  | .str s => s != ""
  | .bool b => b
  | .list vs => !vs.isEmpty
  | .dict kvs => !kvs.isEmpty
  | .none => false
  | _ => true

/-- Method calls: `Path(p).open()` (emits `openFile`, fails iff the file is
absent) and `handle.read()` (emits `readFile`, returns the contents). -/
def applyMethod (w : World) (recv : PyVal) (m : String) (args : List PyVal) :
    EvalRes PyVal :=
  match recv, m, args with
  | .pathObj p, "open", [] =>
    match w.fs p with
    | some contents => ([.openFile p], .ok (.fileHandle p contents))
    | Option.none => ([], .error (.fileNotFound p))
  | .fileHandle p contents, "read", [] => ([.readFile p], .ok (.str contents))
  | _, _, _ => resErr .typeError

/-- The imported callables used by the script: `Path`, `find_packages`
(emits `findPackagesCall`, returns the scan result) and `setup` (emits the
`setupCall` registration event with its evaluated keyword arguments). -/
def applyBuiltin (w : World) (f : String) (args : List PyVal)
    (kwargs : List (String × PyVal)) : EvalRes PyVal :=
  match f, args, kwargs with
  | "Path", [.str p], [] => resOk (.pathObj p)
  | "find_packages", [], [] => ([.findPackagesCall], .ok (.packagesVal w.packages))
  | "setup", [], kvs => ([.setupCall kvs], .ok .none)
  | _, _, _ => resErr (.nameError f)

mutual

/-- Expression evaluation.  A call first resolves its callee: a bare name is
looked up in the environment, falling back to the imported callables; an
attribute callee evaluates the receiver and dispatches the method. -/
def evalExpr (w : World) (env : Env) : PyExpr → EvalRes PyVal
  | .strLit s => resOk (.str s)
  | .boolLit b => resOk (.bool b)
  | .name x =>
    match lookupVar env x with
    | some v => resOk v
    | Option.none => resErr (.nameError x)
  | .listLit es => resBind (evalExprs w env es) fun vs => resOk (.list vs)
  | .dictLit entries => resBind (evalKwargs w env entries) fun kvs => resOk (.dict kvs)
  | .attr _ _ => resErr .typeError
  | .call fn args kwargs =>
    match fn with
    | .name f =>
      match lookupVar env f with
      | some _ => resErr .typeError
      | Option.none =>
        resBind (evalExprs w env args) fun argVals =>
        resBind (evalKwargs w env kwargs) fun kwVals =>
        applyBuiltin w f argVals kwVals
    | .attr obj m =>
      resBind (evalExpr w env obj) fun recv =>
      resBind (evalExprs w env args) fun argVals =>
      match kwargs with
      | [] => applyMethod w recv m argVals
      | _ => resErr .typeError
    | _ => resErr .typeError

def evalExprs (w : World) (env : Env) : List PyExpr → EvalRes (List PyVal)
  | [] => resOk []
  | e :: rest =>
    resBind (evalExpr w env e) fun v =>
    resBind (evalExprs w env rest) fun vs =>
    resOk (v :: vs)

def evalKwargs (w : World) (env : Env) :
    List (String × PyExpr) → EvalRes (List (String × PyVal))
  | [] => resOk []
  | (k, e) :: rest =>
    resBind (evalExpr w env e) fun v =>
    resBind (evalKwargs w env rest) fun kvs =>
    resOk ((k, v) :: kvs)

end

mutual

/-- Statement execution.  `with e as x: body` binds `x` to the value of `e`
and runs the body (the script's only `with` block).  The embedded script
contains no loops, so iterating semantics are outside the modelled fragment:
executing a loop is mapped to an explicit error, never silently skipped. -/
def execStmt (w : World) (env : Env) : PyStmt → EvalRes Env
  | .importFrom _ _ => resOk env
  | .assign x e => resBind (evalExpr w env e) fun v => resOk ((x, v) :: env)
  | .withStmt ctx var body =>
    resBind (evalExpr w env ctx) fun v =>
    execStmts w ((var, v) :: env) body
  | .exprStmt e => resBind (evalExpr w env e) fun _ => resOk env
  | .ifStmt c thn els =>
    resBind (evalExpr w env c) fun v =>
    if truthy v then execStmts w env thn else execStmts w env els
  | .whileStmt _ _ => resErr .unsupportedLoop
  | .forStmt _ _ _ => resErr .unsupportedLoop
  | .tryStmt body handler =>
    match execStmts w env body with
    | (t, .ok env2) => (t, .ok env2)
    | (t, .error _) =>
      match execStmts w env handler with
      | (t2, r) => (t ++ t2, r)

def execStmts (w : World) (env : Env) : List PyStmt → EvalRes Env
  | [] => resOk env
  | s :: rest =>
    resBind (execStmt w env s) fun env2 =>
    execStmts w env2 rest

end

/-- The keyword arguments of the `setup(...)` call, transcribed from
`setup.py` lines 8-32 in source order. -/
def setupKwargsAst : List (String × PyExpr) :=
  [ ("name", .strLit "rupy"),
    ("version", .strLit "0.1"),
    ("keywords", .strLit ""),
    ("description", .strLit ""),
    ("long_description", .name "readme"),
    ("long_description_content_type", .strLit "text/markdown"),
    ("license", .strLit "mit"),
    ("python_requires", .strLit ">=3.6.0"),
    ("url", .strLit "https://github.com/thautwarm/rupy"),
    ("author", .strLit "thautwarm"),
    ("author_email", .strLit "twshere@outlook.com"),
    ("packages", .call (.name "find_packages") [] []),
    ("entry_points", .dictLit
      [("console_scripts", .listLit [.strLit "rupy=rupy.cli:runrupy"])]),
    ("install_requires", .listLit [.strLit "wisepy2"]),
    ("platforms", .strLit "any"),
    ("classifiers", .listLit
      [ .strLit "Programming Language :: Python :: 3.6",
        .strLit "Programming Language :: Python :: 3.7",
        .strLit "Programming Language :: Python :: Implementation :: CPython" ]),
    ("zip_safe", .boolLit false) ]

/-- The module body of `setup.py`: two imports, the `with` block
`with Path('README.md').open() as readme: readme = readme.read()`,
and the single `setup(...)` call. -/
def setupPy : List PyStmt :=
  [ .importFrom "setuptools" ["setup", "find_packages"],
    .importFrom "pathlib" ["Path"],
    .withStmt
      (.call (.attr (.call (.name "Path") [.strLit "README.md"] []) "open") [] [])
      "readme"
      [ .assign "readme" (.call (.attr (.name "readme") "read") [] []) ],
    .exprStmt (.call (.name "setup") [] setupKwargsAst) ]

/-- One execution of the descriptor in world `w`, from the empty environment. -/
def runScript (w : World) : EvalRes Env := execStmts w [] setupPy

/-- The values `setup` receives when the README reads as `s` and
`find_packages()` returns `pkgs`. -/
def setupArgsVal (s : String) (pkgs : List String) : List (String × PyVal) :=
  [ ("name", .str "rupy"),
    ("version", .str "0.1"),
    ("keywords", .str ""),
    ("description", .str ""),
    ("long_description", .str s),
    ("long_description_content_type", .str "text/markdown"),
    ("license", .str "mit"),
    ("python_requires", .str ">=3.6.0"),
    ("url", .str "https://github.com/thautwarm/rupy"),
    ("author", .str "thautwarm"),
    ("author_email", .str "twshere@outlook.com"),
    ("packages", .packagesVal pkgs),
    ("entry_points", .dict
      [("console_scripts", .list [.str "rupy=rupy.cli:runrupy"])]),
    ("install_requires", .list [.str "wisepy2"]),
    ("platforms", .str "any"),
    ("classifiers", .list
      [ .str "Programming Language :: Python :: 3.6",
        .str "Programming Language :: Python :: 3.7",
        .str "Programming Language :: Python :: Implementation :: CPython" ]),
    ("zip_safe", .bool false) ]

/-- The full event trace of a successful execution. -/
def expectedTrace (s : String) (pkgs : List String) : List Event :=
  [ .openFile "README.md", .readFile "README.md", .findPackagesCall,
    .setupCall (setupArgsVal s pkgs) ]

/-- The final environment: `readme` rebound to the file text, shadowing the
file-handle binding made by the `with` statement. -/
def finalEnv (s : String) : Env :=
  [("readme", .str s), ("readme", .fileHandle "README.md" s)]

/-- The registration events of a trace (arguments of each `setup` call). -/
def setupCallsOf (t : List Event) : List (List (String × PyVal)) :=
  t.filterMap fun e =>
    match e with
    | .setupCall kvs => some kvs
    | _ => Option.none

/-- Keyword-argument lookup. -/
def lookupKw : List (String × PyVal) → String → Option PyVal
  | [], _ => Option.none
  | (k, v) :: rest, x => if x = k then some v else lookupKw rest x

def isOpenFileEvt : Event → Bool
  | .openFile _ => true
  | _ => false

def isReadFileEvt : Event → Bool
  | .readFile _ => true
  | _ => false

def isSetupCallEvt : Event → Bool
  | .setupCall _ => true
  | _ => false

mutual

/-- A statement contains conditional logic (an `if`, at any nesting depth). -/
def stmtHasBranch : PyStmt → Bool
  | .ifStmt _ _ _ => true
  | .withStmt _ _ body => stmtsHaveBranch body
  | .whileStmt _ body => stmtsHaveBranch body
  | .forStmt _ _ body => stmtsHaveBranch body
  | .tryStmt body handler => stmtsHaveBranch body || stmtsHaveBranch handler
  | _ => false

def stmtsHaveBranch : List PyStmt → Bool
  | [] => false
  | s :: rest => stmtHasBranch s || stmtsHaveBranch rest

end

mutual

/-- A statement contains a loop (`while` or `for`, at any nesting depth). -/
def stmtHasLoop : PyStmt → Bool
  | .whileStmt _ _ => true
  | .forStmt _ _ _ => true
  | .withStmt _ _ body => stmtsHaveLoop body
  | .ifStmt _ thn els => stmtsHaveLoop thn || stmtsHaveLoop els
  | .tryStmt body handler => stmtsHaveLoop body || stmtsHaveLoop handler
  | _ => false

def stmtsHaveLoop : List PyStmt → Bool
  | [] => false
  | s :: rest => stmtHasLoop s || stmtsHaveLoop rest

end

mutual

/-- A statement contains error handling (a `try/except`, at any depth). -/
def stmtHasTry : PyStmt → Bool
  | .tryStmt _ _ => true
  | .withStmt _ _ body => stmtsHaveTry body
  | .ifStmt _ thn els => stmtsHaveTry thn || stmtsHaveTry els
  | .whileStmt _ body => stmtsHaveTry body
  | .forStmt _ _ body => stmtsHaveTry body
  | _ => false

def stmtsHaveTry : List PyStmt → Bool
  | [] => false
  | s :: rest => stmtHasTry s || stmtsHaveTry rest

end

mutual

/-- Straight-line statements: imports, assignments, expression statements,
and `with` blocks whose bodies are themselves straight-line. -/
def stmtStraight : PyStmt → Bool
  | .importFrom _ _ => true
  | .assign _ _ => true
  | .exprStmt _ => true
  | .withStmt _ _ body => stmtsStraight body
  | _ => false

def stmtsStraight : List PyStmt → Bool
  | [] => true
  | s :: rest => stmtStraight s && stmtsStraight rest

end

/-- A world in which every file reads as `"demo readme"`, used to instantiate
the universally quantified theorems at a concrete input. -/
def demoFS : String → Option String := fun _ => some "demo readme"

/-- A world whose only readable file is `README.md`, with the same contents
as `demoFS` gives it. -/
def altFS : String → Option String :=
  fun p => if p = "README.md" then some "demo readme" else Option.none

theorem runScript_some (fs : String → Option String) (pkgs : List String)
    (s : String) (h : fs "README.md" = some s) :
    runScript ⟨fs, pkgs⟩ = (expectedTrace s pkgs, .ok (finalEnv s)) := by
  simp [runScript, setupPy, setupKwargsAst, execStmts, execStmt, evalExpr,
    evalExprs, evalKwargs, applyBuiltin, applyMethod, lookupVar, resBind,
    resOk, resErr, h, expectedTrace, setupArgsVal, finalEnv]

theorem runScript_none (fs : String → Option String) (pkgs : List String)
    (h : fs "README.md" = Option.none) :
    runScript ⟨fs, pkgs⟩ = ([], .error (.fileNotFound "README.md")) := by
  simp [runScript, setupPy, setupKwargsAst, execStmts, execStmt, evalExpr,
    evalExprs, evalKwargs, applyBuiltin, applyMethod, lookupVar, resBind,
    resOk, resErr, h]

/-- Any arguments a `setup` call receives in any execution arise from a
readable README: they are `setupArgsVal s pkgs` for its contents `s`. -/
theorem setupCalls_mem (fs : String → Option String) (pkgs : List String)
    (args : List (String × PyVal))
    (h : args ∈ setupCallsOf (runScript ⟨fs, pkgs⟩).1) :
    ∃ s, fs "README.md" = some s ∧ args = setupArgsVal s pkgs := by
  rcases hfs : fs "README.md" with _ | s
  · rw [runScript_none fs pkgs hfs] at h
    simp [setupCallsOf] at h
  · rw [runScript_some fs pkgs s hfs] at h
    simp [setupCallsOf, expectedTrace] at h
    exact ⟨s, rfl, h⟩

/-- C1: in every execution, the `entry_points` argument passed to `setup` is
exactly the mapping `console_scripts ↦ ["rupy=rupy.cli:runrupy"]`: one command
`rupy` bound to `rupy.cli:runrupy`, and no other command. -/
theorem setup_entry_points_exact (fs : String → Option String)
    (pkgs : List String) (args : List (String × PyVal))
    (h : args ∈ setupCallsOf (runScript ⟨fs, pkgs⟩).1) :
    lookupKw args "entry_points" =
      some (.dict [("console_scripts", .list [.str "rupy=rupy.cli:runrupy"])]) := by
  obtain ⟨s, _, rfl⟩ := setupCalls_mem fs pkgs args h
  simp [setupArgsVal, lookupKw]

/-- Witness for C1 at a concrete world. -/
theorem setup_entry_points_exact_witness :
    lookupKw (setupArgsVal "demo readme" ["rupy"]) "entry_points" =
      some (.dict [("console_scripts", .list [.str "rupy=rupy.cli:runrupy"])]) :=
  setup_entry_points_exact demoFS ["rupy"] (setupArgsVal "demo readme" ["rupy"])
    (by rw [runScript_some demoFS ["rupy"] "demo readme" rfl]
        simp [setupCallsOf, expectedTrace])

/-- C2: the descriptor's only failure mode is a missing `README.md`: the run
errors with `fileNotFound "README.md"` exactly when the file is absent, in
that case `setup` is never called, and whenever the file is readable the
script completes without raising. -/
theorem setup_py_failure_mode (fs : String → Option String) (pkgs : List String) :
    ((runScript ⟨fs, pkgs⟩).2 = .error (.fileNotFound "README.md")
        ↔ fs "README.md" = Option.none)
    ∧ (fs "README.md" = Option.none →
        setupCallsOf (runScript ⟨fs, pkgs⟩).1 = [])
    ∧ (∀ s, fs "README.md" = some s →
        (runScript ⟨fs, pkgs⟩).2 = .ok (finalEnv s)) := by
  rcases hfs : fs "README.md" with _ | s
  · refine ⟨by simp [runScript_none fs pkgs hfs],
      fun _ => by simp [runScript_none fs pkgs hfs, setupCallsOf],
      fun s hs => Option.noConfusion hs⟩
  · refine ⟨by simp [runScript_some fs pkgs s hfs],
      fun hn => Option.noConfusion hn,
      fun s' hs' => ?_⟩
    obtain rfl : s = s' := Option.some.inj hs'
    simp [runScript_some fs pkgs s hfs]

/-- Witness for C2: with no readable files, no registration happens. -/
theorem setup_py_failure_mode_witness :
    setupCallsOf (runScript ⟨fun _ => Option.none, []⟩).1 = [] :=
  (setup_py_failure_mode (fun _ => Option.none) []).2.1 rfl

/-- C3: in every execution, the `install_requires` argument passed to `setup`
is exactly the one-element list `['wisepy2']`. -/
theorem setup_install_requires_exact (fs : String → Option String)
    (pkgs : List String) (args : List (String × PyVal))
    (h : args ∈ setupCallsOf (runScript ⟨fs, pkgs⟩).1) :
    lookupKw args "install_requires" = some (.list [.str "wisepy2"]) := by
  obtain ⟨s, _, rfl⟩ := setupCalls_mem fs pkgs args h
  simp [setupArgsVal, lookupKw]

/-- Witness for C3 at a concrete world. -/
theorem setup_install_requires_exact_witness :
    lookupKw (setupArgsVal "demo readme" []) "install_requires" =
      some (.list [.str "wisepy2"]) :=
  setup_install_requires_exact demoFS [] (setupArgsVal "demo readme" [])
    (by rw [runScript_some demoFS [] "demo readme" rfl]
        simp [setupCallsOf, expectedTrace])

/-- C4: in every execution, the `python_requires` argument passed to `setup`
equals the string `>=3.6.0`. -/
theorem setup_python_requires_exact (fs : String → Option String)
    (pkgs : List String) (args : List (String × PyVal))
    (h : args ∈ setupCallsOf (runScript ⟨fs, pkgs⟩).1) :
    lookupKw args "python_requires" = some (.str ">=3.6.0") := by
  obtain ⟨s, _, rfl⟩ := setupCalls_mem fs pkgs args h
  simp [setupArgsVal, lookupKw]

/-- Witness for C4 at a concrete world. -/
theorem setup_python_requires_exact_witness :
    lookupKw (setupArgsVal "demo readme" []) "python_requires" =
      some (.str ">=3.6.0") :=
  setup_python_requires_exact demoFS [] (setupArgsVal "demo readme" [])
    (by rw [runScript_some demoFS [] "demo readme" rfl]
        simp [setupCallsOf, expectedTrace])

/-- Counterexample to C5 as stated: in the execution where `README.md` is
missing, the descriptor performs zero file reads and zero registration calls,
not exactly one of each, so not every execution performs exactly one. -/
theorem setup_py_single_ops_counterexample :
    (runScript ⟨fun _ => Option.none, []⟩).1.countP isReadFileEvt = 0
    ∧ (runScript ⟨fun _ => Option.none, []⟩).1.countP isSetupCallEvt = 0
    ∧ ¬ (runScript ⟨fun _ => Option.none, []⟩).1.countP isReadFileEvt = 1 := by
  rw [runScript_none (fun _ => Option.none) [] rfl]
  simp

/-- C5 amended: every execution performs at most one file open, one file read
and one `setup` call, and every execution in which `README.md` is readable
performs exactly one of each, with the trace being exactly open, read,
`find_packages` scan, `setup` call. -/
theorem setup_py_single_ops_amended (fs : String → Option String)
    (pkgs : List String) :
    ((runScript ⟨fs, pkgs⟩).1.countP isOpenFileEvt ≤ 1
      ∧ (runScript ⟨fs, pkgs⟩).1.countP isReadFileEvt ≤ 1
      ∧ (runScript ⟨fs, pkgs⟩).1.countP isSetupCallEvt ≤ 1)
    ∧ (∀ s, fs "README.md" = some s →
        (runScript ⟨fs, pkgs⟩).1 = expectedTrace s pkgs
        ∧ (runScript ⟨fs, pkgs⟩).1.countP isOpenFileEvt = 1
        ∧ (runScript ⟨fs, pkgs⟩).1.countP isReadFileEvt = 1
        ∧ (runScript ⟨fs, pkgs⟩).1.countP isSetupCallEvt = 1) := by
  rcases hfs : fs "README.md" with _ | s
  · exact ⟨by simp [runScript_none fs pkgs hfs],
      fun s hs => Option.noConfusion hs⟩
  · refine ⟨?_, fun s' hs' => ?_⟩
    · simp [runScript_some fs pkgs s hfs, expectedTrace, List.countP_cons,
        isOpenFileEvt, isReadFileEvt, isSetupCallEvt]
    · obtain rfl : s = s' := Option.some.inj hs'
      simp [runScript_some fs pkgs s hfs, expectedTrace, List.countP_cons,
        isOpenFileEvt, isReadFileEvt, isSetupCallEvt]

/-- Witness for the amended C5 at a concrete world. -/
theorem setup_py_single_ops_amended_witness :
    (runScript ⟨demoFS, ["rupy"]⟩).1 = expectedTrace "demo readme" ["rupy"]
    ∧ (runScript ⟨demoFS, ["rupy"]⟩).1.countP isOpenFileEvt = 1
    ∧ (runScript ⟨demoFS, ["rupy"]⟩).1.countP isReadFileEvt = 1
    ∧ (runScript ⟨demoFS, ["rupy"]⟩).1.countP isSetupCallEvt = 1 :=
  (setup_py_single_ops_amended demoFS ["rupy"]).2 "demo readme" rfl

/-- C6: the embedded script is a straight-line sequence of imports, the
`with` block and the `setup` call, containing no conditional, no loop and no
`try/except` handler at any nesting depth. -/
theorem setup_py_straight_line :
    stmtsStraight setupPy = true
    ∧ stmtsHaveBranch setupPy = false
    ∧ stmtsHaveLoop setupPy = false
    ∧ stmtsHaveTry setupPy = false := by
  refine ⟨?_, ?_, ?_, ?_⟩ <;>
    simp [setupPy, stmtsStraight, stmtStraight, stmtsHaveBranch, stmtHasBranch,
      stmtsHaveLoop, stmtHasLoop, stmtsHaveTry, stmtHasTry]

/-- C7: in every execution, the metadata passed to `setup` has
`name = 'rupy'`, `version = '0.1'`, `license = 'mit'`, `author = 'thautwarm'`,
the dependency list `['wisepy2']`, the classifiers for Python 3.6, Python 3.7
and CPython, and an entry-point mapping. -/
theorem setup_metadata_values (fs : String → Option String)
    (pkgs : List String) (args : List (String × PyVal))
    (h : args ∈ setupCallsOf (runScript ⟨fs, pkgs⟩).1) :
    lookupKw args "name" = some (.str "rupy")
    ∧ lookupKw args "version" = some (.str "0.1")
    ∧ lookupKw args "license" = some (.str "mit")
    ∧ lookupKw args "author" = some (.str "thautwarm")
    ∧ lookupKw args "install_requires" = some (.list [.str "wisepy2"])
    ∧ lookupKw args "classifiers" = some (.list
        [ .str "Programming Language :: Python :: 3.6",
          .str "Programming Language :: Python :: 3.7",
          .str "Programming Language :: Python :: Implementation :: CPython" ])
    ∧ (lookupKw args "entry_points").isSome = true := by
  obtain ⟨s, _, rfl⟩ := setupCalls_mem fs pkgs args h
  refine ⟨?_, ?_, ?_, ?_, ?_, ?_, ?_⟩ <;> simp [setupArgsVal, lookupKw]

/-- Witness for C7 at a concrete world. -/
theorem setup_metadata_values_witness :
    lookupKw (setupArgsVal "demo readme" []) "name" = some (.str "rupy")
    ∧ lookupKw (setupArgsVal "demo readme" []) "version" = some (.str "0.1")
    ∧ lookupKw (setupArgsVal "demo readme" []) "license" = some (.str "mit")
    ∧ lookupKw (setupArgsVal "demo readme" []) "author" = some (.str "thautwarm")
    ∧ lookupKw (setupArgsVal "demo readme" []) "install_requires" =
        some (.list [.str "wisepy2"])
    ∧ lookupKw (setupArgsVal "demo readme" []) "classifiers" = some (.list
        [ .str "Programming Language :: Python :: 3.6",
          .str "Programming Language :: Python :: 3.7",
          .str "Programming Language :: Python :: Implementation :: CPython" ])
    ∧ (lookupKw (setupArgsVal "demo readme" []) "entry_points").isSome = true :=
  setup_metadata_values demoFS [] (setupArgsVal "demo readme" [])
    (by rw [runScript_some demoFS [] "demo readme" rfl]
        simp [setupCallsOf, expectedTrace])

/-- C8: whenever `README.md` reads as `s`, `setup` receives
`long_description = s` verbatim with content type `text/markdown`, and in the
final environment the name `readme` is rebound from the file handle to the
full text `s`. -/
theorem setup_long_description_verbatim (fs : String → Option String)
    (pkgs : List String) (s : String) (hfs : fs "README.md" = some s)
    (args : List (String × PyVal))
    (hmem : args ∈ setupCallsOf (runScript ⟨fs, pkgs⟩).1) :
    lookupKw args "long_description" = some (.str s)
    ∧ lookupKw args "long_description_content_type" = some (.str "text/markdown")
    ∧ (runScript ⟨fs, pkgs⟩).2 = .ok (finalEnv s)
    ∧ lookupVar (finalEnv s) "readme" = some (.str s) := by
  obtain ⟨s', hfs', rfl⟩ := setupCalls_mem fs pkgs args hmem
  rw [hfs] at hfs'
  obtain rfl : s = s' := by cases hfs'; rfl
  refine ⟨by simp [setupArgsVal, lookupKw], by simp [setupArgsVal, lookupKw],
    by simp [runScript_some fs pkgs s hfs], by simp [finalEnv, lookupVar]⟩

/-- Witness for C8 at a concrete world. -/
theorem setup_long_description_verbatim_witness :
    lookupKw (setupArgsVal "demo readme" []) "long_description" =
      some (.str "demo readme")
    ∧ lookupKw (setupArgsVal "demo readme" []) "long_description_content_type" =
        some (.str "text/markdown")
    ∧ (runScript ⟨demoFS, []⟩).2 = .ok (finalEnv "demo readme")
    ∧ lookupVar (finalEnv "demo readme") "readme" = some (.str "demo readme") :=
  setup_long_description_verbatim demoFS [] "demo readme" rfl
    (setupArgsVal "demo readme" [])
    (by rw [runScript_some demoFS [] "demo readme" rfl]
        simp [setupCallsOf, expectedTrace])

/-- C9: in every execution, `setup` receives empty-string `keywords` and
`description`, and `zip_safe = False`, regardless of the README contents. -/
theorem setup_empty_keywords_description (fs : String → Option String)
    (pkgs : List String) (args : List (String × PyVal))
    (h : args ∈ setupCallsOf (runScript ⟨fs, pkgs⟩).1) :
    lookupKw args "keywords" = some (.str "")
    ∧ lookupKw args "description" = some (.str "")
    ∧ lookupKw args "zip_safe" = some (.bool false) := by
  obtain ⟨s, _, rfl⟩ := setupCalls_mem fs pkgs args h
  refine ⟨?_, ?_, ?_⟩ <;> simp [setupArgsVal, lookupKw]

/-- Witness for C9 at a concrete world. -/
theorem setup_empty_keywords_description_witness :
    lookupKw (setupArgsVal "demo readme" []) "keywords" = some (.str "")
    ∧ lookupKw (setupArgsVal "demo readme" []) "description" = some (.str "")
    ∧ lookupKw (setupArgsVal "demo readme" []) "zip_safe" = some (.bool false) :=
  setup_empty_keywords_description demoFS [] (setupArgsVal "demo readme" [])
    (by rw [runScript_some demoFS [] "demo readme" rfl]
        simp [setupCallsOf, expectedTrace])

/-- Counterexample to C10 as stated: two executions in which `README.md` has
identical contents but the `find_packages()` scan differs pass different
argument lists to `setup` (the `packages` argument is computed by
`find_packages()`, not a fixed literal). -/
theorem setup_py_determinism_counterexample :
    demoFS "README.md" = demoFS "README.md"
    ∧ setupCallsOf (runScript ⟨demoFS, []⟩).1
        ≠ setupCallsOf (runScript ⟨demoFS, ["rupy"]⟩).1 := by
  refine ⟨rfl, ?_⟩
  rw [runScript_some demoFS [] "demo readme" rfl,
    runScript_some demoFS ["rupy"] "demo readme" rfl]
  simp [setupCallsOf, expectedTrace, setupArgsVal]

/-- C10 amended: for any two executions in which `README.md` has the same
contents and `find_packages()` returns the same package list, the executions
are identical: same trace, same `setup` arguments, same result. -/
theorem setup_py_determinism_amended (fs1 fs2 : String → Option String)
    (pkgs1 pkgs2 : List String)
    (hr : fs1 "README.md" = fs2 "README.md") (hp : pkgs1 = pkgs2) :
    runScript ⟨fs1, pkgs1⟩ = runScript ⟨fs2, pkgs2⟩ := by
  subst hp
  rcases hfs : fs1 "README.md" with _ | s
  · rw [runScript_none fs1 pkgs1 hfs, runScript_none fs2 pkgs1 (by rw [← hr, hfs])]
  · rw [runScript_some fs1 pkgs1 s hfs, runScript_some fs2 pkgs1 s (by rw [← hr, hfs])]

/-- Witness for the amended C10: two worlds differing outside `README.md`
and the package scan produce identical executions. -/
theorem setup_py_determinism_amended_witness :
    runScript ⟨demoFS, ["rupy"]⟩ = runScript ⟨altFS, ["rupy"]⟩ :=
  setup_py_determinism_amended demoFS altFS ["rupy"] ["rupy"] (by decide) rfl

end Rupy
